import Mathlib

/-!
Shallow embedding of `src/switchy/models.py` (the freeSWITCH entity models of
the switchy repository) together with theorems settling the specification
claims about `Events`, `Session` and `Job`.

Conventions of the embedding:
* An ESL event is its header bag, an association list of header names to
  values; `getHeader` returns the value or Python `None` (`Option.none`).
* Python dicts are insertion-ordered association lists (the spec does not
  demand any particular ordering, and the claims stipulate supplied order).
* Fallible Python code (raising `KeyError`, `IndexError`, ...) is embedded
  with `Except PyErr`.
* Object identity of the shared mutable default `kwargs={}` dict of
  `Job.__init__` is modelled with a small heap (`Heap`, a list of dicts) in
  which index `0` is the module-level default dict, created once when the
  `def` is evaluated; every Job stores the index (`kwargsRef`) of its dict.
-/

set_option autoImplicit false

namespace Switchy

/-- An ESL event modelled as its header bag: an association list from header
names to values in delivery order. A missing header yields Python None. -/
abbrev Event := List (String × String)

/-- ESLEvent.getHeader: value of header k, or none when the event has no such
header. -/
def getHeader (ev : Event) (k : String) : Option String :=
  (ev.find? (fun p => p.1 == k)).map (fun p => p.2)

/-- Python truthiness of a header lookup result: None and the empty string are
falsy, any other string is truthy. -/
def pyTruthy : Option String → Bool
  | none => false
  | some s => s != ""

/-- Errors raised by the modelled code. -/
inductive PyErr
  | keyError (k : String)
  | indexError
  | unboundLocalError (n : String)
  | nameError (n : String)
  | assertionError
  deriving DecidableEq, Repr

deriving instance DecidableEq for Except

/-- models.py `Events`: event collection backed by a deque of events, newest
at the front (lilo order). -/
structure Events where
  _events : List Event
  deriving DecidableEq, Repr

/-- Model of Events.update(event): appendleft on the deque - the newest
record goes to the front. -/
def Events.update (es : Events) (event : Event) : Events :=
  ⟨event :: es._events⟩

/-- Model of Events.__init__(event=None): start from an empty deque, folding
in the optional seed event through `update`. -/
def Events.init (event : Option Event) : Events :=
  match event with
  | none => ⟨[]⟩
  | some ev => Events.update ⟨[]⟩ ev

/-- The loop of `Events.get`: walk the deque from the newest record, return
the first truthy header value, else the default. -/
def Events.getLoop (l : List Event) (key : String) (default : Option String) :
    Option String :=
  match l with
  | [] => default
  | ev :: rest =>
      let value := getHeader ev key
      if pyTruthy value then value else Events.getLoop rest key default

/-- Model of Events.get(key, default=None): newest-wins truthy header lookup;
never raises. String keys pass through str() unchanged. -/
def Events.get (es : Events) (key : String) (default : Option String) :
    Option String :=
  Events.getLoop es._events key default

/-- Model of len(events). -/
def Events.len (es : Events) : Nat :=
  es._events.length

/-- Result of `Events.__getitem__`: either a header value (when key
resolution hits) or a raw record (positional access). -/
inductive ItemRes
  | header (v : String)
  | record (e : Event)
  deriving DecidableEq, Repr

/-- Python `deque` indexing with a possibly negative index; none when the
index is out of range (the deque raises IndexError). -/
def dequeGet (l : List Event) (i : Int) : Option Event :=
  let j : Int := if i < 0 then (l.length : Int) + i else i
  if 0 ≤ j then l.get? j.toNat else none

/-- Model of Events.__getitem__(key) for an integer key: the header lookup
self.get(key) runs
first (with `str(key)` as the header name); only when that misses is the
internal deque indexed, raising IndexError when `i` is out of range. -/
def Events.getitemInt (es : Events) (i : Int) : Except PyErr ItemRes :=
  match es.get (toString i) none with
  | some v => Except.ok (ItemRes.header v)
  | none =>
      match dequeGet es._events i with
      | some ev => Except.ok (ItemRes.record ev)
      | none => Except.error PyErr.indexError

/-- Model of Events.__getitem__(key) for a string key: the truthy lookup
result, or
KeyError when every record misses (a string is not an int or slice). -/
def Events.getitemStr (es : Events) (k : String) : Except PyErr String :=
  match es.get k none with
  | some v => Except.ok v
  | none => Except.error (PyErr.keyError k)

/-- A sequence of `update` calls applied in order to a ledger. -/
def applyUpdates (es : Events) (us : List Event) : Events :=
  us.foldl Events.update es

/-! ### Python dicts and the heap of kwargs dicts -/

/-- A Python dict modelled as an insertion-ordered association list. -/
abbrev Dict := List (String × String)

/-- Dict item assignment: overwrite the binding in place when the key exists,
else append the new binding. -/
def dictSet (d : Dict) (k v : String) : Dict :=
  if d.any (fun p => p.1 == k) then
    d.map (fun p => if p.1 == k then (k, v) else p)
  else d ++ [(k, v)]

/-- Dict update: fold the bindings of the right dict into the left one. -/
def dictUpdate (d kv : Dict) : Dict :=
  kv.foldl (fun acc p => dictSet acc p.1 p.2) d

/-- A heap of dicts, so that distinct Jobs can alias one mutable dict object
(the shared `kwargs={}` default of `Job.__init__`). -/
abbrev Heap := List Dict

/-- Dereference a dict by heap index. -/
def heapGet (h : Heap) (i : Nat) : Dict :=
  h.getD i []

/-- Overwrite the dict stored at a heap index. -/
def heapSet (h : Heap) (i : Nat) (d : Dict) : Heap :=
  List.set h i d

/-- The heap at module-load time: index 0 holds the single empty dict created
when `def __init__(..., kwargs={})` is evaluated. -/
def initHeap : Heap := [[]]

/-- Heap index of the shared default kwargs dict: every `Job`
construction that does not pass an explicit kwargs argument stores this same
index. -/
def sharedKwargsRef : Nat := 0

/-- Model of the Python join of a list of strings with a separator. -/
def joinStrs (sep : String) : List String → String
  | [] => ""
  | [x] => x
  | x :: xs => x ++ sep ++ joinStrs sep xs

/-! ### Session -/

/-- models.py `Session`: FS session state. Only the fields the claims touch
are modelled: the event ledger and the resolved uuid. Command-issuing methods
return the list of strings handed to `self.con.api`, in order. -/
structure Session where
  events : Events
  uuid : String
  deriving DecidableEq, Repr

/-- Model of Session.__init__(uuid=None, event=None, con=None): builds the
ledger
from the optional seed event, then unconditionally resolves
the strict Unique-ID item lookup (raising KeyError when no record exposes a truthy
value), and only afterwards lets a truthy explicit uuid argument override the
resolved value. -/
def Session.init (uuid : Option String) (event : Option Event) :
    Except PyErr Session :=
  let es := Events.init event
  match es.getitemStr "Unique-ID" with
  | Except.error e => Except.error e
  | Except.ok u =>
      Except.ok
        { events := es
          uuid := match uuid with
                  | some s => if s != "" then s else u
                  | none => u }

/-- Model of Session.setvars(params): the source assigns to the local name
pairs a generator expression whose outer iterable is pairs.iteritems();
a generator expression evaluates its outer iterable eagerly, reading the
local name pairs before the assignment binds it, so every call raises
UnboundLocalError and no command ever reaches the connection. -/
def Session.setvars (_s : Session) (_params : Dict) :
    Except PyErr (List String) :=
  Except.error (PyErr.unboundLocalError "pairs")

/-- Model of Session.broadcast(path, leg): issues exactly one api string,
uuid_broadcast uuid path leg; the leg parameter defaults to the empty string,
leaving a trailing space. -/
def Session.broadcast (s : Session) (path : String) (leg : String) :
    List String :=
  ["uuid_broadcast " ++ s.uuid ++ " " ++ path ++ " " ++ leg]

/-- Model of Session.bridge(profile, dest_url, params=False): builds
`bridge::\x7bkey=value,...\x7dsofia/<profile>/<dest_url>` - a falsy `params`
(omitted, or an empty dict) yields an empty variable-set segment - and
forwards it through `broadcast` with the default empty leg. -/
def Session.bridge (s : Session) (profile dest_url : String)
    (params : Option Dict) : List String :=
  let pairs : List String :=
    match params with
    | some d => if d.isEmpty then [] else d.map (fun p => p.1 ++ "=" ++ p.2)
    | none => []
  s.broadcast
    ("bridge::\x7b" ++ joinStrs "," pairs ++ "\x7dsofia/" ++ profile ++ "/"
      ++ dest_url) ""

/-- Model of Session.playback(file_path, leg): issues exactly one api string;
the format hard-codes the literal aleg and never interpolates the leg
parameter (whose source default is the string aleg). -/
def Session.playback (s : Session) (file_path : String) (_leg : String) :
    List String :=
  ["uuid_broadcast " ++ s.uuid ++ " playback::" ++ file_path ++ " aleg"]

/-! ### Job -/

/-- Values that can sit in the result slot of a Job: a raw response string, a
value produced by the result-transform callback, or a JobError wrapping
another such value (`JobError(...)` in `Job.fail`). -/
inductive JVal
  | str (s : String)
  | err (v : JVal)
  deriving DecidableEq, Repr

/-- models.py `Job`: deferred execution handle for a background job. The
`launch_time`/`cid` fields (wall-clock and client ident bookkeeping) are not
modelled; `kwargsRef` is the heap index of the Python dict object bound to
`self.kwargs`. The completion `mp.Event` is the boolean `_sig`. -/
structure Job where
  events : Events
  uuid : String
  sess_uuid : Option String
  _cb : Option (String → Dict → JVal)
  kwargsRef : Nat
  _result : Option JVal
  _failed : Bool
  _sig : Bool

/-- Model of Job.__init__(event, sess_uuid=None, callback=None,
client_id=None, kwargs={}): builds the ledger from the seed event and
resolves the strict Job-UUID item lookup, raising KeyError when no record exposes a truthy
value. A caller that omits the kwargs argument passes `sharedKwargsRef`, the
index of the one default dict shared by all such constructions. -/
def Job.init (event : Option Event) (sess_uuid : Option String)
    (callback : Option (String → Dict → JVal)) (kwargsRef : Nat) :
    Except PyErr Job :=
  let es := Events.init event
  match es.getitemStr "Job-UUID" with
  | Except.error e => Except.error e
  | Except.ok u =>
      Except.ok
        { events := es, uuid := u, sess_uuid := sess_uuid, _cb := callback
          kwargsRef := kwargsRef, _result := none, _failed := false
          _sig := false }

/-- Model of Job.__call__(resp, *args, **kwargs) as a sequence of mutations:
the
returned list holds the (job, heap) state after each assignment of the body,
in program order, and the second component is the value the call returns.
With a callback: `self.kwargs.update(kwargs)` (heap write), then
`self._result = self._cb(resp, **self.kwargs)`, then `self._sig.set()`.
Without: `self._result = resp`, then `self._sig.set()`. -/
def Job.callSeq (j : Job) (h : Heap) (resp : String) (kwargs : Dict) :
    List (Job × Heap) × JVal :=
  match j._cb with
  | some cb =>
      let h1 := heapSet h j.kwargsRef (dictUpdate (heapGet h j.kwargsRef) kwargs)
      let r := cb resp (heapGet h1 j.kwargsRef)
      let j1 := { j with _result := some r }
      let j2 := { j1 with _sig := true }
      ([(j1, h1), (j2, h1)], r)
  | none =>
      let r := JVal.str resp
      let j1 := { j with _result := some r }
      let j2 := { j1 with _sig := true }
      ([(j1, h), (j2, h)], r)

/-- Model of Job.__call__: final (job, heap) state together with the returned
result. -/
def Job.call (j : Job) (h : Heap) (resp : String) (kwargs : Dict) :
    Job × Heap × JVal :=
  let (states, r) := j.callSeq h resp kwargs
  match states.getLast? with
  | some (j2, h2) => (j2, h2, r)
  | none => (j, h, r)

/-- Model of Job.fail(resp, *args, **kwargs) as a sequence of mutations:
`self._failed = True` first, then every mutation of `self(resp, ...)` (which
sets the completion signal), and only after that call returns is
`self._result = JobError(...)` assigned. -/
def Job.failSeq (j : Job) (h : Heap) (resp : String) (kwargs : Dict) :
    List (Job × Heap) :=
  let j1 := { j with _failed := true }
  let (states, r) := j1.callSeq h resp kwargs
  match states.getLast? with
  | some (j2, h2) =>
      (j1, h) :: states ++ [({ j2 with _result := some (JVal.err r) }, h2)]
  | none => [(j1, h)]

/-- Model of Job.fail: final (job, heap) state. -/
def Job.fail (j : Job) (h : Heap) (resp : String) (kwargs : Dict) :
    Job × Heap :=
  match (j.failSeq h resp kwargs).getLast? with
  | some st => st
  | none => (j, h)

/-- Possible outcomes of `Job.get(timeout)`. -/
inductive GetOutcome
  | value (r : Option JVal)
  | raises (e : PyErr)
  | blocks
  deriving DecidableEq, Repr

/-- Model of Job.get(timeout=None): the wait on the completion signal - the
job state here is the state observed when the wait returns (no concurrent
completer), so the ready flag is the signal. If ready, return the stored
result. The elif guard on the timeout is a truthiness test, so only a
nonzero timeout reaches the raise; a falsy one (0) falls through and the
method returns Python None. The raise itself names TimeoutError, which under
this Python 2 source resolves to no local, module-level or builtin name (the
nested Job.TimeoutError is class-scoped and not visible from the method
body, and Python 2 has no builtin TimeoutError), so the branch actually
fails with NameError. With no timeout and the signal unset the wait never
returns. -/
def Job.get (j : Job) (timeout : Option ℚ) : GetOutcome :=
  match timeout with
  | none =>
      if j._sig then GetOutcome.value j._result else GetOutcome.blocks
  | some t =>
      if j._sig then GetOutcome.value j._result
      else if t ≠ 0 then GetOutcome.raises (PyErr.nameError "TimeoutError")
      else GetOutcome.value none

/-- Model of Job.ready(): whether the completion signal is set. -/
def Job.ready (j : Job) : Bool :=
  j._sig

/-- Model of Job.successful(): asserts ready() then returns the negation of
the failure flag. -/
def Job.successful (j : Job) : Except PyErr Bool :=
  if j._sig then Except.ok (!j._failed) else Except.error PyErr.assertionError

/-- Model of Job.update(event): folds an event into the ledger of the job; no
other field is touched. -/
def Job.updateEv (j : Job) (event : Event) : Job :=
  { j with events := j.events.update event }

/-- The result slot at the moment the completion signal fires: the `_result`
field of the first state of a mutation sequence whose signal is set. -/
def stateAtSignal (states : List (Job × Heap)) : Option (Option JVal) :=
  (states.find? (fun p => p.1._sig)).map (fun p => p.1._result)

/-! ### Concrete sample objects used by witnesses and counterexamples -/

/-- A seed event whose Job-UUID header is J1. -/
def evJ1 : Event := [("Job-UUID", "J1")]

/-- A fallback Job value used only to total the sample extractions below. -/
def dummyJob : Job :=
  { events := ⟨[]⟩, uuid := "", sess_uuid := none, _cb := none
    kwargsRef := sharedKwargsRef, _result := none, _failed := false
    _sig := false }

/-- A freshly constructed (pending) Job with id J1, no callback, default
kwargs. -/
def jobJ1 : Job :=
  match Job.init (some evJ1) none none sharedKwargsRef with
  | Except.ok j => j
  | Except.error _ => dummyJob

/-- A sample result-transform callback: returns the response unchanged. -/
def cbKeep : String → Dict → JVal :=
  fun resp _ => JVal.str resp

/-- First sample Job constructed without an explicit kwargs argument, with a
result-transform callback. -/
def jobA : Job :=
  match Job.init (some [("Job-UUID", "A")]) none (some cbKeep)
      sharedKwargsRef with
  | Except.ok j => j
  | Except.error _ => dummyJob

/-- Second sample Job constructed without an explicit kwargs argument. -/
def jobB : Job :=
  match Job.init (some [("Job-UUID", "B")]) none none sharedKwargsRef with
  | Except.ok j => j
  | Except.error _ => dummyJob

/-- A sample Session with uuid u1. -/
def sessionU1 : Session :=
  match Session.init none (some [("Unique-ID", "u1")]) with
  | Except.ok s => s
  | Except.error _ => { events := ⟨[]⟩, uuid := "" }

/-! ### Helper lemmas -/

theorem applyUpdates_events (es : Events) (us : List Event) :
    (applyUpdates es us)._events = us.reverse ++ es._events := by
  induction us generalizing es with
  | nil => simp [applyUpdates]
  | cons u us ih =>
      simp only [applyUpdates, List.foldl] at *
      rw [ih]
      simp [Events.update]

theorem getLoop_eq_find (l : List Event) (key : String) (d : Option String) :
    Events.getLoop l key d =
      match l.find? (fun ev => pyTruthy (getHeader ev key)) with
      | some ev => getHeader ev key
      | none => d := by
  induction l with
  | nil => simp [Events.getLoop]
  | cons ev rest ih =>
      by_cases h : pyTruthy (getHeader ev key)
      · simp [Events.getLoop, h, List.find?]
      · simp only [Bool.not_eq_true] at h
        simp [Events.getLoop, h, List.find?, ih]

/-! ### Claim C1 -/

/-- C1: for every EventLedger and every sequence of `update(record)` calls,
`get(key, default)` returns the header value of the most recently appended
record that exposes a non-empty (truthy) value for `key`, skipping records
whose value is empty or absent, and returns `default` when no folded record
exposes one. `get` is a total function of the ledger, so it never fails. -/
theorem events_get_newest_wins (us : List Event) (key : String)
    (d : Option String) :
    (applyUpdates (Events.init none) us).get key d =
      match us.reverse.find? (fun ev => pyTruthy (getHeader ev key)) with
      | some ev => getHeader ev key
      | none => d := by
  unfold Events.get
  rw [applyUpdates_events]
  simp only [Events.init, List.append_nil]
  exact getLoop_eq_find us.reverse key d

/-! ### Claim C2 -/

/-- C2: a Job constructed from a seed event whose Job-UUID header is the
string jid has id jid; ready() is false before completion (and stays false
under mere event updates); after complete(resp) without a result-transform
callback, the call returns the raw response, the stored result is that
response, get() returns it, and ready() is true (also after fail). -/
theorem job_seed_complete_ready
    (ev : Event) (jid : String) (su : Option String) (ref : Nat) (job : Job)
    (hHdr : getHeader ev "Job-UUID" = some jid)
    (hMk : Job.init (some ev) su none ref = Except.ok job) :
    job.uuid = jid ∧ job.ready = false ∧
    (∀ e : Event, (job.updateEv e).ready = false) ∧
    ∀ (h : Heap) (resp : String) (kwargs : Dict),
      (job.call h resp kwargs).2.2 = JVal.str resp ∧
      (job.call h resp kwargs).1._result = some ((job.call h resp kwargs).2.2) ∧
      (job.call h resp kwargs).1.get none
        = GetOutcome.value (some (JVal.str resp)) ∧
      (job.call h resp kwargs).1.ready = true ∧
      ((job.fail h resp kwargs).1).ready = true := by
  by_cases hz : jid = ""
  · exfalso
    subst hz
    simp [Job.init, Events.getitemStr, Events.get, Events.init, Events.update,
          Events.getLoop, hHdr, pyTruthy] at hMk
  · have hred : Job.init (some ev) su none ref = Except.ok
        { events := ⟨[ev]⟩, uuid := jid, sess_uuid := su, _cb := none
          kwargsRef := ref, _result := none, _failed := false
          _sig := false } := by
      simp [Job.init, Events.getitemStr, Events.get, Events.init,
            Events.update, Events.getLoop, hHdr, pyTruthy, bne_iff_ne, hz]
    rw [hred] at hMk
    injection hMk with hMk
    subst hMk
    exact ⟨rfl, rfl, fun e => rfl,
           fun h resp kwargs => ⟨rfl, rfl, rfl, rfl, rfl⟩⟩

/-- C2 witness: the theorem applied at the concrete seed event evJ1 and a
concrete completion. -/
theorem job_seed_complete_ready_w :
    jobJ1.uuid = "J1" ∧ jobJ1.ready = false ∧
    (jobJ1.call initHeap "ok" []).2.2 = JVal.str "ok" ∧
    (jobJ1.call initHeap "ok" []).1.get none
      = GetOutcome.value (some (JVal.str "ok")) ∧
    (jobJ1.call initHeap "ok" []).1.ready = true := by
  have h := job_seed_complete_ready evJ1 "J1" none sharedKwargsRef jobJ1
    rfl rfl
  exact ⟨h.1, h.2.1, (h.2.2.2 initHeap "ok" []).1,
         (h.2.2.2 initHeap "ok" []).2.2.1,
         (h.2.2.2 initHeap "ok" []).2.2.2.1⟩

/-! ### Claim C3 -/

/-- C3 counterexample: on a pending job, get with the supplied timeout 0
returns Python None without failing at all, and get with the nonzero
supplied timeout 1 does fail - but with the NameError from the unresolvable
name TimeoutError, not with a job-timeout error; both refute the claim as
stated. -/
theorem job_get_zero_timeout_cex :
    jobJ1.get (some 0) = GetOutcome.value none ∧
    jobJ1.get (some 0) ≠ GetOutcome.raises (PyErr.nameError "TimeoutError") ∧
    jobJ1.get (some 1) = GetOutcome.raises (PyErr.nameError "TimeoutError") := by
  refine ⟨rfl, ?_, by decide⟩
  decide

/-- C3 amended: if the completion signal has fired, get returns the stored
result (with or without a timeout); if a nonzero (truthy) timeout is
supplied and elapses before completion, get fails, but with a NameError -
the raise names TimeoutError, which resolves to no local, module-level or
Python 2 builtin name (the nested Job.TimeoutError is class-scoped) - rather
than a job-timeout error; a supplied timeout of 0 on a pending job makes get
return None without failing; if the timeout is omitted, get blocks and never
fails on expiry in that mode. -/
theorem job_get_timeout_amended
    (job : Job) (h : Heap) (resp : String) (kwargs : Dict) (t : ℚ)
    (ht : t ≠ 0) (hpend : job._sig = false) :
    (job.call h resp kwargs).1.get (some t)
      = GetOutcome.value ((job.call h resp kwargs).1._result) ∧
    (job.call h resp kwargs).1.get none
      = GetOutcome.value ((job.call h resp kwargs).1._result) ∧
    job.get (some t) = GetOutcome.raises (PyErr.nameError "TimeoutError") ∧
    job.get none = GetOutcome.blocks ∧
    job.get (some 0) = GetOutcome.value none := by
  have hsig : (job.call h resp kwargs).1._sig = true := by
    cases hc : job._cb <;> simp [Job.call, Job.callSeq, hc]
  refine ⟨?_, ?_, ?_, ?_, ?_⟩
  · simp [Job.get, hsig]
  · simp [Job.get, hsig]
  · simp [Job.get, hpend, ht]
  · simp [Job.get, hpend]
  · simp [Job.get, hpend]

/-- C3 witness: the amended theorem applied at the concrete pending job
jobJ1 and timeout 1. -/
theorem job_get_timeout_amended_w :
    (jobJ1.call initHeap "ok" []).1.get (some 1)
      = GetOutcome.value ((jobJ1.call initHeap "ok" []).1._result) ∧
    jobJ1.get (some 1) = GetOutcome.raises (PyErr.nameError "TimeoutError") ∧
    jobJ1.get none = GetOutcome.blocks ∧
    jobJ1.get (some 0) = GetOutcome.value none := by
  have h := job_get_timeout_amended jobJ1 initHeap "ok" [] 1 (by norm_num) rfl
  exact ⟨h.1, h.2.2.1, h.2.2.2.1, h.2.2.2.2⟩

/-! ### Claim C4 -/

/-- C4 counterexample: in fail("boom") on the pending job jobJ1 (no
callback), the result slot at the moment the completion signal fires holds
the raw response, not the JobError wrapping; the wrap is assigned only after
the signal is set. -/
theorem fail_signal_before_wrap_cex :
    stateAtSignal (jobJ1.failSeq initHeap "boom" [])
      = some (some (JVal.str "boom")) ∧
    stateAtSignal (jobJ1.failSeq initHeap "boom" [])
      ≠ some (some (JVal.err (JVal.str "boom"))) := by
  constructor
  · rfl
  · decide

/-- C4 amended: fail marks the failure flag before anything else (every
recorded state of the mutation sequence has it set, in particular before the
signal), the final stored result is the JobError wrapping of the produced
result, and successful() afterwards returns false - but the JobError is
assigned only after the completion signal fires: at the first state where
the signal is set, the result slot still holds the unwrapped produced
result. -/
theorem fail_flag_and_wrap_order
    (job : Job) (h : Heap) (resp : String) (kwargs : Dict)
    (hpend : job._sig = false) :
    ((job.failSeq h resp kwargs).all (fun p => p.1._failed)) = true ∧
    stateAtSignal (job.failSeq h resp kwargs)
      = some (some ((job.callSeq h resp kwargs).2)) ∧
    (job.fail h resp kwargs).1._result
      = some (JVal.err ((job.callSeq h resp kwargs).2)) ∧
    (job.fail h resp kwargs).1._failed = true ∧
    (job.fail h resp kwargs).1.successful = Except.ok false := by
  cases hc : job._cb <;>
    simp [Job.failSeq, Job.fail, Job.callSeq, Job.successful, stateAtSignal,
          hc, hpend, List.getLast?, List.find?]

/-- C4 witness: the amended theorem applied at the pending job jobJ1 failed
with the response boom. -/
theorem fail_flag_and_wrap_order_w :
    stateAtSignal (jobJ1.failSeq initHeap "boom" [])
      = some (some ((jobJ1.callSeq initHeap "boom" []).2)) ∧
    (jobJ1.fail initHeap "boom" []).1._result
      = some (JVal.err ((jobJ1.callSeq initHeap "boom" []).2)) ∧
    (jobJ1.fail initHeap "boom" []).1.successful = Except.ok false := by
  have h := fail_flag_and_wrap_order jobJ1 initHeap "boom" [] rfl
  exact ⟨h.2.1, h.2.2.1, h.2.2.2.2⟩

/-! ### Claim C5 -/

/-- C5 counterexample: a ledger holding one record with a truthy header named
0 resolves ledger[0] to that header value, not to the raw record - integer
indexing does not bypass header-key resolution. -/
theorem getitem_header_shadow_cex :
    (Events.init (some [("0", "X")])).getitemInt 0
      = Except.ok (ItemRes.header "X") ∧
    (Events.init (some [("0", "X")])).getitemInt 0
      ≠ Except.ok (ItemRes.record [("0", "X")]) := by
  constructor
  · rfl
  · decide

/-- C5 amended: key resolution is attempted first even for integer keys;
provided no folded record exposes a non-empty value for the header named
str(i), ledger[i] returns the raw record at newest-first position i (so
ledger[0] is the most recently appended record) and fails with IndexError
for i at or beyond length(). -/
theorem getitem_positional_amended
    (es : Events) (i : Int) (e : Event)
    (hmiss : es.get (toString i) none = none) :
    (0 ≤ i → es._events.get? i.toNat = some e →
        es.getitemInt i = Except.ok (ItemRes.record e)) ∧
    ((es._events.length : Int) ≤ i →
        es.getitemInt i = Except.error PyErr.indexError) := by
  constructor
  · intro hge hsome
    have hnotneg : ¬ i < 0 := not_lt.mpr hge
    rw [List.get?_eq_getElem?] at hsome
    simp [Events.getitemInt, hmiss, dequeGet, hnotneg, hge, hsome]
  · intro hlen
    have hge : 0 ≤ i := le_trans (Int.ofNat_nonneg _) hlen
    have hnotneg : ¬ i < 0 := not_lt.mpr hge
    have hnone : es._events.get? i.toNat = none := by
      rw [List.get?_eq_none]
      omega
    rw [List.get?_eq_getElem?] at hnone
    simp [Events.getitemInt, hmiss, dequeGet, hnotneg, hge, hnone]

/-- C5 witness: the amended theorem applied at a one-record ledger without
numeric header names, at positions 0 (hit) and 5 (out of range). -/
theorem getitem_positional_amended_w :
    (Events.init (some [("h", "v")])).getitemInt 0
      = Except.ok (ItemRes.record [("h", "v")]) ∧
    (Events.init (some [("h", "v")])).getitemInt 5
      = Except.error PyErr.indexError := by
  have h0 := getitem_positional_amended (Events.init (some [("h", "v")])) 0
    [("h", "v")] rfl
  have h5 := getitem_positional_amended (Events.init (some [("h", "v")])) 5
    [("h", "v")] rfl
  exact ⟨h0.1 (by decide) rfl, h5.2 (by decide)⟩

/-! ### Claim C6 -/

/-- C6 counterexample: constructing a Session with an explicit uuid but no
seed event fails with KeyError, because the strict Unique-ID lookup runs
before the explicit uuid is considered - the claim that such construction
succeeds is refuted. -/
theorem session_no_seed_cex :
    Session.init (some "X") none
      = Except.error (PyErr.keyError "Unique-ID") := rfl

/-- C6 amended: an explicitly supplied non-empty uuid overrides the id
resolved from the seed record, and with no explicit uuid the id is the
strict Unique-ID lookup result - but the strict lookup runs unconditionally
first, so construction fails with KeyError whenever no seed record exposes a
truthy Unique-ID, in particular when no seed event is supplied at all. -/
theorem session_uuid_override_amended
    (ev : Event) (u r : String)
    (hres : (Events.init (some ev)).getitemStr "Unique-ID" = Except.ok r)
    (hu : u ≠ "") :
    Session.init (some u) (some ev)
      = Except.ok { events := Events.init (some ev), uuid := u } ∧
    Session.init none (some ev)
      = Except.ok { events := Events.init (some ev), uuid := r } ∧
    (∀ u2 : String, Session.init (some u2) none
      = Except.error (PyErr.keyError "Unique-ID")) := by
  refine ⟨?_, ?_, fun u2 => rfl⟩
  · simp [Session.init, hres, bne_iff_ne, hu]
  · simp [Session.init, hres]

/-- C6 witness: the amended theorem applied at a seed event with Unique-ID
U1 and the explicit override X. -/
theorem session_uuid_override_amended_w :
    Session.init (some "X") (some [("Unique-ID", "U1")])
      = Except.ok { events := Events.init (some [("Unique-ID", "U1")])
                    uuid := "X" } ∧
    Session.init none (some [("Unique-ID", "U1")])
      = Except.ok { events := Events.init (some [("Unique-ID", "U1")])
                    uuid := "U1" } := by
  have h := session_uuid_override_amended [("Unique-ID", "U1")] "X" "U1"
    rfl (by decide)
  exact ⟨h.1, h.2.1⟩

/-! ### Claim C7 -/

/-- C7: setvars never succeeds - the generator expression in its body reads
the local name pairs before the assignment binds it, so e.g.
setvars with the single pair a=1 on the session with uuid u1 raises
UnboundLocalError and
issues no uuid_setvar_multi command at all. -/
theorem setvars_unbound_local :
    sessionU1.setvars [("a", "1")]
      = Except.error (PyErr.unboundLocalError "pairs") := rfl

/-! ### Claim C8 -/

/-- C8 counterexample: bridge("internal", "1000", ordered a=1, b=2) on the
session with uuid u1 does not issue the bare bridge path: the single issued
command is the uuid_broadcast-wrapped string with a trailing space from the
empty default leg. -/
theorem bridge_command_cex :
    Session.bridge sessionU1 "internal" "1000" (some [("a", "1"), ("b", "2")])
      ≠ ["bridge::\x7ba=1,b=2\x7dsofia/internal/1000"] ∧
    Session.bridge sessionU1 "internal" "1000" (some [("a", "1"), ("b", "2")])
      = ["uuid_broadcast u1 bridge::\x7ba=1,b=2\x7dsofia/internal/1000 "] := by
  constructor
  · decide
  · rfl

/-- C8 amended: bridge builds the path bridge::\x7bkey=value,...\x7dsofia/
profile/dest (pairs joined with comma, each with equals, in supplied order;
omitted params give an empty variable-set segment) and issues exactly one
command: that path wrapped as uuid_broadcast uuid path followed by the empty
default leg (hence a trailing space). -/
theorem bridge_command_amended
    (s : Session) (profile dest ka va kb vb : String) :
    Session.bridge s profile dest (some [(ka, va), (kb, vb)])
      = ["uuid_broadcast " ++ s.uuid ++ " "
          ++ ("bridge::\x7b" ++ (ka ++ "=" ++ va ++ "," ++ (kb ++ "=" ++ vb))
              ++ "\x7dsofia/" ++ profile ++ "/" ++ dest)
          ++ " " ++ ""] ∧
    Session.bridge s profile dest none
      = ["uuid_broadcast " ++ s.uuid ++ " "
          ++ ("bridge::\x7b" ++ "" ++ "\x7dsofia/" ++ profile ++ "/" ++ dest)
          ++ " " ++ ""] :=
  ⟨rfl, rfl⟩

/-! ### Claim C9 -/

/-- C9: two Jobs constructed without an explicit kwargs argument share the
single module-level default dict: completing the first (which owns a
result-transform callback) with the extra keyword k=v makes that binding
visible in the kwargs payload of the second job - constructions do not receive
fresh empty mappings. -/
theorem shared_default_kwargs :
    jobA.kwargsRef = jobB.kwargsRef ∧
    heapGet (jobA.call initHeap "ok" [("k", "v")]).2.1 jobB.kwargsRef
      = [("k", "v")] := by
  exact ⟨rfl, rfl⟩

/-! ### Claim C10 -/

/-- C10: playback issues exactly one command, uuid_broadcast uuid
playback::file_path aleg, for every value of the leg argument - the
parameter is ignored and the a-leg literal is always used, so two calls
differing only in leg issue identical commands. -/
theorem playback_ignores_leg (s : Session) (fp leg leg2 : String) :
    Session.playback s fp leg
      = ["uuid_broadcast " ++ s.uuid ++ " playback::" ++ fp ++ " aleg"] ∧
    Session.playback s fp leg = Session.playback s fp leg2 :=
  ⟨rfl, rfl⟩

end Switchy
